import Mathlib

/-!
Verification of the scroll-driven navigation controller
(`ScrollSections` component and its `PortfolioHorizontal` sub-navigator).

The development shallowly embeds the controller's pure core:

* the step model (`sectionSteps`, `buildSteps`, the module-level `sections`
  and `steps` constants);
* the transition orchestrator `goToStep` together with its DOM-dependent
  helpers (`getSectionElements`, `animateTextIn`, `animateTextOut`,
  `animateSectionChange`), modelled as a function from an explicit
  navigation state and a DOM snapshot to a new state plus a list of fired
  animation/scroll commands;
* the wheel input aggregator `onWheel` (portfolio branch and plain branch);
* the horizontal gallery's `slideTo` / `next` / `prev`;
* the progress reporter `syncProgress`.

Event-loop aspects (the 200 ms debounce timer, GSAP tween playback) are
modelled by explicit completion functions (`wheelTimerFire`,
`onScrollComplete`, `gallerySlideComplete`): firing a timer or finishing a
tween is an explicit state transition, which is exactly how the
single-threaded event loop delivers those callbacks.
-/

/-- Text alignment of a section (`align: 'left' | 'right' | 'center'`). -/
inductive Align where
  | left
  | right
  | center
deriving DecidableEq, Repr

/-- Value stored in a section's optional `detail` field: either a plain
string or a React element (whose content the controller never inspects;
only its JS truthiness matters, and any object is truthy). -/
inductive DetailVal where
  | str (s : String)
  | elem
deriving DecidableEq, Repr

/-- JS truthiness of a `detail` value: the empty string is falsy, any other
string and any element is truthy. -/
def DetailVal.truthy : DetailVal → Bool
  | .str s => s ≠ ""
  | .elem => true

/-- One entry of the author-defined `sections` array (`interface SectionData`). -/
structure SectionData where
  id : String
  line1 : String
  line2 : String
  subtitle : String
  detail : Option DetailVal := none
  isPortfolio : Bool := false
  align : Align
deriving DecidableEq, Repr

/-- JS truthiness of `s.detail` (an absent field is `undefined`, hence falsy). -/
def detailTruthy (s : SectionData) : Bool :=
  match s.detail with
  | none => false
  | some d => d.truthy

/-- Kind of a navigable step (`subStep: 'title' | 'detail' | 'portfolio'`). -/
inductive SubStep where
  | title
  | detail
  | portfolio
deriving DecidableEq, Repr

/-- One navigable step (`interface Step`). -/
structure Step where
  sectionIndex : Nat
  subStep : SubStep
deriving DecidableEq, Repr

/-- Steps contributed by the section at index `i`: the body of the
`sections.forEach((s, i) => …)` loop — always push a title step, then a
portfolio step when `s.isPortfolio`, else a detail step when `s.detail`
is truthy. -/
def sectionSteps (i : Nat) (s : SectionData) : List Step :=
  [⟨i, SubStep.title⟩] ++
    (if s.isPortfolio then [⟨i, SubStep.portfolio⟩]
     else if detailTruthy s then [⟨i, SubStep.detail⟩]
     else [])

/-- The step-building loop (`const steps: Step[] = []; sections.forEach(…)`),
as a left fold appending each section's pushes in order. -/
def buildSteps (secs : List SectionData) : List Step :=
  secs.enum.foldl (fun acc p => acc ++ sectionSteps p.1 p.2) []

/-- The module-level `sections` constant. Every `detail` that is a JSX
element is abstracted to `DetailVal.elem` (the controller only tests its
truthiness); the first section's detail is the empty string literal. -/
def sections : List SectionData := [
  { id := "hello", line1 := "ALPHINTRA", line2 := "", subtitle := "",
    detail := some (DetailVal.str ""), align := Align.center },
  { id := "hero", line1 := "ENGINEERING", line2 := "THE FUTURE",
    subtitle := "OF DIGITAL INTELLIGENCE", detail := some DetailVal.elem,
    align := Align.left },
  { id := "web", line1 := "WEB &", line2 := "MOBILE",
    subtitle := "NEXT.JS • FLUTTER • REACT", detail := some DetailVal.elem,
    align := Align.right },
  { id := "ai", line1 := "AI &", line2 := "AUTOMATION",
    subtitle := "RAG • LLM • LANGCHAIN", detail := some DetailVal.elem,
    align := Align.left },
  { id := "enterprise", line1 := "ENTERPRISE", line2 := "BACKEND",
    subtitle := "SPRING BOOT • MICROSERVICES • GCP",
    detail := some DetailVal.elem, align := Align.right },
  { id := "design", line1 := "UI/UX &", line2 := "3D DESIGN",
    subtitle := "FIGMA • THREE.JS • INTERACTIVE",
    detail := some DetailVal.elem, align := Align.left },
  { id := "portfolio", line1 := "OUR", line2 := "WORK",
    subtitle := "CIPERLUX • BUSHUBLK • APEX FINANCE",
    isPortfolio := true, align := Align.center },
  { id := "process", line1 := "THE", line2 := "ALPHINTRA WAY",
    subtitle := "DISCOVERY → DESIGN → SPRINT → DEPLOY",
    detail := some DetailVal.elem, align := Align.left },
  { id := "team", line1 := "THE", line2 := "TEAM",
    subtitle := "FRONTEND • BACKEND • DESIGN",
    detail := some DetailVal.elem, align := Align.right },
  { id := "contact", line1 := "LET\x27S", line2 := "TALK",
    subtitle := "START YOUR PROJECT TODAY",
    detail := some DetailVal.elem, align := Align.center }
]

/-- The module-level `steps` constant, built once from `sections`. -/
def steps : List Step := buildSteps sections

-- ── Step-model lemmas ───────────────────────────────────────

/-- The push loop starting from any accumulator is the accumulator followed
by the concatenation of each section's block of pushes. -/
lemma foldl_sectionSteps (l : List (Nat × SectionData)) (init : List Step) :
    l.foldl (fun acc p => acc ++ sectionSteps p.1 p.2) init =
      init ++ (l.map fun p => sectionSteps p.1 p.2).flatten := by
  induction l generalizing init with
  | nil => simp
  | cons a l ih => simp [ih, List.append_assoc]

/-- Every step pushed for section `i` carries `sectionIndex = i`. -/
lemma sectionSteps_sectionIndex {i : Nat} {s : SectionData} {t : Step}
    (h : t ∈ sectionSteps i s) : t.sectionIndex = i := by
  simp only [sectionSteps, List.mem_append, List.mem_singleton] at h
  rcases h with h | h
  · rw [h]
  · split at h <;> simp_all

/-- All section indices appearing in the blocks generated from
`enumFrom n` are at least `n`, and the concatenation is sorted. -/
lemma enumFrom_blocks_sorted (l : List SectionData) (n : Nat) :
    List.Pairwise (· ≤ ·)
      ((((l.enumFrom n).map fun p => sectionSteps p.1 p.2).flatten).map Step.sectionIndex) ∧
    ∀ x ∈ (((l.enumFrom n).map fun p => sectionSteps p.1 p.2).flatten).map Step.sectionIndex,
      n ≤ x := by
  induction l generalizing n with
  | nil => simp
  | cons s l ih =>
    have hcons : (s :: l).enumFrom n = (n, s) :: l.enumFrom (n + 1) := rfl
    rw [hcons]
    simp only [List.map_cons, List.flatten_cons, List.map_append]
    obtain ⟨ihp, ihb⟩ := ih (n + 1)
    have hhead : ∀ x ∈ (sectionSteps n s).map Step.sectionIndex, x = n := by
      intro x hx
      simp only [List.mem_map] at hx
      obtain ⟨t, ht, rfl⟩ := hx
      exact sectionSteps_sectionIndex ht
    constructor
    · rw [List.pairwise_append]
      refine ⟨?_, ihp, ?_⟩
      · exact List.pairwise_of_forall_mem_list fun a ha b hb => by
          rw [hhead a ha, hhead b hb]
      · intro a ha b hb
        rw [hhead a ha]
        exact Nat.le_of_succ_le (ihb b hb)
    · intro x hx
      rcases List.mem_append.mp hx with h | h
      · exact (hhead x h).ge
      · exact Nat.le_of_succ_le (ihb x h)

/-- C4 — Step-model generation invariant: `buildSteps` is exactly the
concatenation, in section order, of one block per section; each block
starts with that section's title step, has length 2 when the section is a
portfolio or has truthy detail content and length 1 otherwise, and all its
steps point back at that section; consequently the `sectionIndex` sequence
of the whole step list is monotonically non-decreasing, and the empty
section list yields the empty step list. -/
theorem buildSteps_generation_invariant (secs : List SectionData) :
    buildSteps ([] : List SectionData) = [] ∧
    buildSteps secs = ((secs.enum).map fun p => sectionSteps p.1 p.2).flatten ∧
    (∀ i s, (sectionSteps i s).head? = some ⟨i, SubStep.title⟩ ∧
      (sectionSteps i s).length =
        (if s.isPortfolio = true ∨ detailTruthy s = true then 2 else 1) ∧
      ∀ t ∈ sectionSteps i s, t.sectionIndex = i) ∧
    List.Pairwise (· ≤ ·) ((buildSteps secs).map Step.sectionIndex) := by
  refine ⟨rfl, ?_, ?_, ?_⟩
  · rw [buildSteps, foldl_sectionSteps, List.nil_append]
  · intro i s
    refine ⟨rfl, ?_, fun t ht => sectionSteps_sectionIndex ht⟩
    simp only [sectionSteps, List.length_append, List.length_singleton]
    rcases hp : s.isPortfolio with _ | _ <;> rcases hd : detailTruthy s with _ | _ <;> simp
  · rw [buildSteps, foldl_sectionSteps, List.nil_append, List.enum]
    exact (enumFrom_blocks_sorted secs 0).1

/-- C9 — Empty-string detail yields no detail step: a detail step is pushed
only when the section's `detail` is truthy and it is not a portfolio
section, so the first source section (`detail: ''`) contributes only its
title step; on the embedded 10-section list the step list has exactly 19
entries — 10 title steps, 8 detail steps and 1 portfolio step. -/
theorem empty_detail_no_detail_step :
    (∀ i s, Step.mk i SubStep.detail ∈ sectionSteps i s ↔
      (s.isPortfolio = false ∧ detailTruthy s = true)) ∧
    steps.length = 19 ∧
    (steps.filter fun t => decide (t.subStep = SubStep.title)).length = 10 ∧
    (steps.filter fun t => decide (t.subStep = SubStep.detail)).length = 8 ∧
    (steps.filter fun t => decide (t.subStep = SubStep.portfolio)).length = 1 ∧
    (steps.filter fun t => decide (t.sectionIndex = 0)) = [⟨0, SubStep.title⟩] := by
  refine ⟨?_, by decide, by decide, by decide, by decide, by decide⟩
  intro i s
  simp only [sectionSteps, List.singleton_append, List.mem_cons]
  constructor
  · intro h
    rcases h with h | h
    · exact absurd (congrArg Step.subStep h) (by simp)
    · rcases hp : s.isPortfolio with _ | _ <;> rcases hd : detailTruthy s with _ | _ <;>
        simp_all
  · rintro ⟨hp, hd⟩
    simp [hp, hd]

-- ── Transition orchestrator ─────────────────────────────────

/-- Navigation state owned by the orchestrator: `currentStepRef` (mirrored
by the `currentStep` React state, updated together with it), the
`isAnimating` lock, the `visibleDetails` set, the `portfolioVisible` flag
and the `activeTextSections` ref. -/
structure NavState where
  currentStep : Nat
  isAnimating : Bool
  visibleDetails : Finset Nat
  portfolioVisible : Bool
  activeText : Finset Nat
deriving DecidableEq

/-- State at mount: `useState(0)`, `useRef(false)`, `new Set()`, `false`,
`useRef(new Set())`. -/
def initState : NavState :=
  { currentStep := 0, isAnimating := false, visibleDetails := ∅,
    portfolioVisible := false, activeText := ∅ }

/-- Snapshot of the DOM as the controller queries it:
`containerRef.current?.querySelectorAll('.scroll-section')` is `none` when
the container ref is null, otherwise one entry per section element giving
that element's number of `.char` spans. -/
structure Dom where
  sectionEls : Option (List Nat)
deriving DecidableEq

/-- Commands the orchestrator fires at the GSAP layer. -/
inductive Way where
  | up
  | down
deriving DecidableEq

/-- Observable animation/scroll commands (the GSAP tween creations). -/
inductive Effect where
  | textIn (sectionIndex : Nat)
  | textOut (sectionIndex : Nat) (way : Way)
  | scrollTo (sectionIndex : Nat)
deriving DecidableEq

/-- `getSectionElements(sectionIndex)`: `none` when the container ref is
null or the indexed section element does not exist, otherwise the number
of `.char` spans of that element. -/
def getSectionElements (dom : Dom) (i : Nat) : Option Nat :=
  dom.sectionEls.bind fun l => l.get? i

/-- `animateTextIn(sectionIndex, _)`: no-op when the section's elements are
missing or it has no chars; otherwise fires the entrance tweens and adds
the section to `activeTextSections`. (The hero/regular branches fire
different tweens; both are abstracted to one `textIn` command.) -/
def animateTextIn (dom : Dom) (active : Finset Nat) (i : Nat) :
    Finset Nat × List Effect :=
  match getSectionElements dom i with
  | none => (active, [])
  | some c => if c = 0 then (active, []) else (insert i active, [Effect.textIn i])

/-- `animateTextOut(sectionIndex, way)`: no-op when the section's elements
are missing or it has no chars; otherwise fires the exit tweens and
removes the section from `activeTextSections`. -/
def animateTextOut (dom : Dom) (active : Finset Nat) (i : Nat) (way : Way) :
    Finset Nat × List Effect :=
  match getSectionElements dom i with
  | none => (active, [])
  | some c => if c = 0 then (active, []) else (active.erase i, [Effect.textOut i way])

/-- First half of `animateSectionChange`: animate the departing section's
text out when the section changes and its text is currently in. -/
def sectionChangeOut (stps : List Step) (dom : Dom) (active : Finset Nat)
    (fromStep toStep : Nat) (way : Way) : Finset Nat × List Effect :=
  match stps.get? fromStep, stps.get? toStep with
  | some f, some t =>
    if f.sectionIndex ≠ t.sectionIndex ∧ f.sectionIndex ∈ active then
      animateTextOut dom active f.sectionIndex way
    else (active, [])
  | _, _ => (active, [])

/-- Second half of `animateSectionChange`: animate the arriving section's
text in when the arriving step (passed as `stps.get? toStep`) is a title
step whose text is not currently in. -/
def sectionChangeIn (dom : Dom) (op : Finset Nat × List Effect)
    (o : Option Step) : Finset Nat × List Effect :=
  match o with
  | some t =>
    if t.subStep = SubStep.title ∧ t.sectionIndex ∉ op.1 then
      let ip := animateTextIn dom op.1 t.sectionIndex
      (ip.1, op.2 ++ ip.2)
    else op
  | none => op

/-- `animateSectionChange(fromStep, toStep)`: animate the departing
section's text out when the section changes and its text is in, and the
arriving section's text in when arriving at a title step whose text is not
in. (The `none` branches of the two halves are unreachable from
`goToStep`, which only passes in-range indices.) -/
def animateSectionChange (stps : List Step) (dom : Dom) (active : Finset Nat)
    (fromStep toStep : Nat) : Finset Nat × List Effect :=
  let way : Way := if toStep > fromStep then Way.down else Way.up
  sectionChangeIn dom (sectionChangeOut stps dom active fromStep toStep way)
    (stps.get? toStep)

/-- Visibility bookkeeping of `goToStep` for the arriving step: a detail
step adds its section to `visibleDetails`; a title step removes its
section and, when that section is the portfolio section, clears
`portfolioVisible`; a portfolio step sets `portfolioVisible`. Returns
`none` when `sections[step.sectionIndex]` does not exist (a JS exception
in the source; unreachable for steps built from the section list). -/
def applyVisibility (secs : List SectionData) (step : Step) (st : NavState) :
    Option NavState :=
  match step.subStep with
  | SubStep.detail =>
    some { st with visibleDetails := insert step.sectionIndex st.visibleDetails }
  | SubStep.title =>
    match secs.get? step.sectionIndex with
    | none => none
    | some sec =>
      let st' := { st with visibleDetails := st.visibleDetails.erase step.sectionIndex }
      some (if sec.isPortfolio then { st' with portfolioVisible := false } else st')
  | SubStep.portfolio => some { st with portfolioVisible := true }

/-- `Math.max(0, Math.min(stepIndex, steps.length - 1))`, computed over the
integers exactly as in JS (for an empty step list the upper bound is `-1`
and the clamp yields `0`). -/
def clampStep (stps : List Step) (t : Int) : Int :=
  max 0 (min t ((stps.length : Int) - 1))

/-- The scroll command of `goToStep`: the `gsap.to(window, { scrollTo … })`
tween is created only when the container and the arriving section's
element both exist; the two early `return`s (`!sectionEls`, `!targetEl`)
fire nothing. -/
def scrollEffects (dom : Dom) (i : Nat) : List Effect :=
  match dom.sectionEls with
  | none => []
  | some l => if i < l.length then [Effect.scrollTo i] else []

/-- `goToStep(stepIndex)`: clamp; reject when the clamped target is the
current step or the `isAnimating` lock is held; otherwise commit the new
step index, take the lock, update visibility, fire the section animations
and the scroll command. The lock is released only by the scroll tween's
`onComplete` (`onScrollComplete` below); the early anchor-missing returns
leave it set. `none` models the JS exception thrown when
`steps[clamped]` or `sections[step.sectionIndex]` is undefined. -/
def goToStep (stps : List Step) (secs : List SectionData) (dom : Dom)
    (st : NavState) (target : Int) : Option (NavState × List Effect) :=
  let clamped := clampStep stps target
  if clamped = (st.currentStep : Int) then some (st, [])
  else if st.isAnimating then some (st, [])
  else
    match stps.get? clamped.toNat with
    | none => none
    | some step =>
      let previousStep := st.currentStep
      let st1 := { st with currentStep := clamped.toNat, isAnimating := true }
      match applyVisibility secs step st1 with
      | none => none
      | some st2 =>
        let p := animateSectionChange stps dom st2.activeText previousStep clamped.toNat
        some ({ st2 with activeText := p.1 },
          p.2 ++ scrollEffects dom step.sectionIndex)

/-- The scroll tween's `onComplete` callback: the sole place that clears
the `isAnimating` lock. -/
def onScrollComplete (st : NavState) : NavState :=
  { st with isAnimating := false }

-- ── Orchestrator lemmas ─────────────────────────────────────

/-- A `goToStep` call made while the lock is held (or that clamps to the
current step) changes nothing and fires nothing. -/
lemma goToStep_noop_of_locked (stps : List Step) (secs : List SectionData)
    (dom : Dom) (st : NavState) (target : Int) (h : st.isAnimating = true) :
    goToStep stps secs dom st target = some (st, []) := by
  unfold goToStep
  by_cases hc : clampStep stps target = (st.currentStep : Int) <;> simp [hc, h]

/-- Visibility bookkeeping touches only `visibleDetails` and
`portfolioVisible`. -/
lemma applyVisibility_preserves {secs : List SectionData} {step : Step}
    {st st' : NavState} (h : applyVisibility secs step st = some st') :
    st'.currentStep = st.currentStep ∧ st'.isAnimating = st.isAnimating ∧
      st'.activeText = st.activeText := by
  unfold applyVisibility at h
  split at h
  · simp only [Option.some.injEq] at h
    subst h; exact ⟨rfl, rfl, rfl⟩
  · split at h
    · exact absurd h (by simp)
    · simp only [Option.some.injEq] at h
      subst h
      split <;> exact ⟨rfl, rfl, rfl⟩
  · simp only [Option.some.injEq] at h
    subst h; exact ⟨rfl, rfl, rfl⟩

/-- Shape of a committing `goToStep`: with the lock free and a genuinely
new clamped target, the result is the visibility-updated state (with the
lock taken and the step index committed), the text animations, and the
scroll command when the anchor exists. -/
lemma goToStep_commit_shape {stps : List Step} {secs : List SectionData}
    {dom : Dom} {st : NavState} {target : Int} {st' : NavState}
    {effs : List Effect} {step : Step}
    (hlock : st.isAnimating = false)
    (hne : clampStep stps target ≠ (st.currentStep : Int))
    (hstep : stps.get? (clampStep stps target).toNat = some step)
    (hres : goToStep stps secs dom st target = some (st', effs)) :
    ∃ st₂, applyVisibility secs step
        { st with currentStep := (clampStep stps target).toNat, isAnimating := true } =
          some st₂ ∧
      st' = { st₂ with activeText :=
        (animateSectionChange stps dom st₂.activeText st.currentStep
          (clampStep stps target).toNat).1 } ∧
      effs = (animateSectionChange stps dom st₂.activeText st.currentStep
          (clampStep stps target).toNat).2 ++ scrollEffects dom step.sectionIndex := by
  unfold goToStep at hres
  rw [if_neg hne] at hres
  rw [hlock] at hres
  simp only [Bool.false_eq_true, if_false, hstep] at hres
  rcases hv : applyVisibility secs step
      { st with currentStep := (clampStep stps target).toNat, isAnimating := true } with _ | st₂
  · rw [hv] at hres
    exact absurd hres (by simp)
  · rw [hv] at hres
    simp only [Option.some.injEq, Prod.mk.injEq] at hres
    exact ⟨st₂, rfl, hres.1.symm, hres.2.symm⟩

/-- A committing `goToStep` records the clamped target and takes the lock. -/
lemma goToStep_commit_fields {stps : List Step} {secs : List SectionData}
    {dom : Dom} {st : NavState} {target : Int} {st' : NavState}
    {effs : List Effect} {step : Step}
    (hlock : st.isAnimating = false)
    (hne : clampStep stps target ≠ (st.currentStep : Int))
    (hstep : stps.get? (clampStep stps target).toNat = some step)
    (hres : goToStep stps secs dom st target = some (st', effs)) :
    st'.currentStep = (clampStep stps target).toNat ∧ st'.isAnimating = true := by
  obtain ⟨st₂, hv, hst, -⟩ := goToStep_commit_shape hlock hne hstep hres
  obtain ⟨hc, ha, -⟩ := applyVisibility_preserves hv
  subst hst
  exact ⟨hc, ha⟩

/-- C1 — Mutual exclusion of transitions: a `goToStep` that commits (lock
free, clamped target distinct from the current step) records the target
and takes the `isAnimating` lock, and until the scroll command's
completion clears that lock every further `goToStep` — whatever its
target and whatever the DOM looks like — returns with the state untouched
(`currentStep`, `visibleDetails`, `portfolioVisible` unchanged) and fires
no animation or scroll command: exactly one transition is committed. -/
theorem goToStep_mutual_exclusion (stps : List Step) (secs : List SectionData)
    (dom : Dom) (st : NavState) (target : Int) (st₁ : NavState)
    (effs : List Effect) (step : Step)
    (hlock : st.isAnimating = false)
    (hne : clampStep stps target ≠ (st.currentStep : Int))
    (hstep : stps.get? (clampStep stps target).toNat = some step)
    (hres : goToStep stps secs dom st target = some (st₁, effs)) :
    st₁.currentStep = (clampStep stps target).toNat ∧
    st₁.isAnimating = true ∧
    ∀ (dom₂ : Dom) (target₂ : Int),
      goToStep stps secs dom₂ st₁ target₂ = some (st₁, []) := by
  obtain ⟨hc, ha⟩ := goToStep_commit_fields hlock hne hstep hres
  exact ⟨hc, ha, fun dom₂ t₂ => goToStep_noop_of_locked _ _ _ _ _ ha⟩

/-- Witness for C1: from the initial state, `goToStep(1)` commits step 1
and takes the lock, and a back-to-back `goToStep(2)` is rejected without
any state change or command. -/
theorem goToStep_mutual_exclusion_witness :
    initState.isAnimating = false ∧
    clampStep steps 1 ≠ (initState.currentStep : Int) ∧
    steps.get? (clampStep steps 1).toNat = some ⟨1, SubStep.title⟩ ∧
    goToStep steps sections ⟨some []⟩ initState 1 =
      some ({ currentStep := 1, isAnimating := true, visibleDetails := ∅,
              portfolioVisible := false, activeText := ∅ }, []) ∧
    goToStep steps sections ⟨some []⟩
      { currentStep := 1, isAnimating := true, visibleDetails := ∅,
        portfolioVisible := false, activeText := ∅ } 2 =
      some ({ currentStep := 1, isAnimating := true, visibleDetails := ∅,
              portfolioVisible := false, activeText := ∅ }, []) :=
  ⟨rfl, by decide, by decide, by decide,
    (goToStep_mutual_exclusion steps sections ⟨some []⟩ initState 1
      { currentStep := 1, isAnimating := true, visibleDetails := ∅,
        portfolioVisible := false, activeText := ∅ } [] ⟨1, SubStep.title⟩
      rfl (by decide) (by decide) (by decide)).2.2 ⟨some []⟩ 2⟩

/-- C8 — Idempotence of `goToStep` on the current step: whenever the target
clamps to the current step index the call is rejected at the first guard:
the state (in particular `currentStep`, `visibleDetails`,
`portfolioVisible`) is returned unchanged and no animation or scroll
command fires. (The lock is not even consulted, so this holds whether or
not it is free.) -/
theorem goToStep_idempotent_on_current (stps : List Step)
    (secs : List SectionData) (dom : Dom) (st : NavState) (target : Int)
    (heq : clampStep stps target = (st.currentStep : Int)) :
    goToStep stps secs dom st target = some (st, []) := by
  unfold goToStep
  simp [heq]

/-- Witness for C8: from the initial state, a target of `-5` clamps to the
current step `0` and the call is a no-op. -/
theorem goToStep_idempotent_on_current_witness :
    clampStep steps (-5) = (initState.currentStep : Int) ∧
    goToStep steps sections ⟨some []⟩ initState (-5) = some (initState, []) :=
  ⟨by decide,
    goToStep_idempotent_on_current steps sections ⟨some []⟩ initState (-5) (by decide)⟩

/-- The entrance helper fires either nothing or one `textIn`. -/
lemma animateTextIn_effects (dom : Dom) (a : Finset Nat) (j : Nat) :
    (animateTextIn dom a j).2 = [] ∨ (animateTextIn dom a j).2 = [Effect.textIn j] := by
  unfold animateTextIn
  cases h : getSectionElements dom j with
  | none => exact Or.inl rfl
  | some c => by_cases hc : c = 0 <;> simp [hc]

/-- The exit helper fires either nothing or one `textOut`. -/
lemma animateTextOut_effects (dom : Dom) (a : Finset Nat) (j : Nat) (w : Way) :
    (animateTextOut dom a j w).2 = [] ∨
      (animateTextOut dom a j w).2 = [Effect.textOut j w] := by
  unfold animateTextOut
  cases h : getSectionElements dom j with
  | none => exact Or.inl rfl
  | some c => by_cases hc : c = 0 <;> simp [hc]

/-- The entrance helper never fires a scroll command. -/
lemma animateTextIn_no_scroll (dom : Dom) (a : Finset Nat) (j i : Nat) :
    Effect.scrollTo i ∉ (animateTextIn dom a j).2 := by
  rcases animateTextIn_effects dom a j with h | h <;> rw [h] <;> simp

/-- The exit helper never fires a scroll command. -/
lemma animateTextOut_no_scroll (dom : Dom) (a : Finset Nat) (j : Nat) (w : Way)
    (i : Nat) : Effect.scrollTo i ∉ (animateTextOut dom a j w).2 := by
  rcases animateTextOut_effects dom a j w with h | h <;> rw [h] <;> simp

/-- The departing-text half of a section change never fires a scroll
command. -/
lemma sectionChangeOut_no_scroll (stps : List Step) (dom : Dom)
    (active : Finset Nat) (f t : Nat) (w : Way) (i : Nat) :
    Effect.scrollTo i ∉ (sectionChangeOut stps dom active f t w).2 := by
  unfold sectionChangeOut
  split
  · split
    · exact animateTextOut_no_scroll _ _ _ _ _
    · simp
  · simp

/-- The arriving-text half adds no scroll command either. -/
lemma sectionChangeIn_no_scroll (dom : Dom) (op : Finset Nat × List Effect)
    (o : Option Step) (i : Nat) (hop : Effect.scrollTo i ∉ op.2) :
    Effect.scrollTo i ∉ (sectionChangeIn dom op o).2 := by
  cases o with
  | none => exact hop
  | some ts =>
    show Effect.scrollTo i ∉
      (if ts.subStep = SubStep.title ∧ ts.sectionIndex ∉ op.1 then
        ((animateTextIn dom op.1 ts.sectionIndex).1,
          op.2 ++ (animateTextIn dom op.1 ts.sectionIndex).2)
      else op).2
    split
    · simp only [List.mem_append, not_or]
      exact ⟨hop, animateTextIn_no_scroll _ _ _ _⟩
    · exact hop

/-- The text animations fired by a section change are entrance/exit tweens
only — never a scroll command. -/
lemma animateSectionChange_no_scroll (stps : List Step) (dom : Dom)
    (active : Finset Nat) (f t : Nat) (i : Nat) :
    Effect.scrollTo i ∉ (animateSectionChange stps dom active f t).2 :=
  sectionChangeIn_no_scroll _ _ _ _ (sectionChangeOut_no_scroll _ _ _ _ _ _ _)

/-- C10 — Visibility flags are modified only for the arriving step's
section: a committing `goToStep` arriving at a detail step inserts exactly
that step's section into `visibleDetails` (leaving `portfolioVisible`
alone), arriving at a title step erases exactly that section (clearing
`portfolioVisible` only when that section is the portfolio section), and
arriving at the portfolio step leaves `visibleDetails` alone; hence every
other section's membership in `visibleDetails` is untouched, so entries
for several sections can be held simultaneously. -/
theorem goToStep_visibility_frame (stps : List Step) (secs : List SectionData)
    (dom : Dom) (st : NavState) (target : Int) (st' : NavState)
    (effs : List Effect) (step : Step)
    (hlock : st.isAnimating = false)
    (hne : clampStep stps target ≠ (st.currentStep : Int))
    (hstep : stps.get? (clampStep stps target).toNat = some step)
    (hres : goToStep stps secs dom st target = some (st', effs)) :
    (∀ j, j ≠ step.sectionIndex → (j ∈ st'.visibleDetails ↔ j ∈ st.visibleDetails)) ∧
    (step.subStep = SubStep.detail →
      st'.visibleDetails = insert step.sectionIndex st.visibleDetails ∧
      st'.portfolioVisible = st.portfolioVisible) ∧
    (step.subStep = SubStep.title →
      st'.visibleDetails = st.visibleDetails.erase step.sectionIndex ∧
      ∀ sec, secs.get? step.sectionIndex = some sec →
        st'.portfolioVisible = (if sec.isPortfolio then false else st.portfolioVisible)) ∧
    (step.subStep = SubStep.portfolio →
      st'.visibleDetails = st.visibleDetails ∧ st'.portfolioVisible = true) := by
  obtain ⟨st₂, hv, hst, -⟩ := goToStep_commit_shape hlock hne hstep hres
  have hvd : st'.visibleDetails = st₂.visibleDetails := by rw [hst]
  have hpv : st'.portfolioVisible = st₂.portfolioVisible := by rw [hst]
  unfold applyVisibility at hv
  rcases hsub : step.subStep with _ | _ | _ <;> rw [hsub] at hv
  · -- title
    rcases hsec : secs.get? step.sectionIndex with _ | sec
    · rw [hsec] at hv
      simp at hv
    · have h₂ : st₂.visibleDetails = st.visibleDetails.erase step.sectionIndex ∧
          st₂.portfolioVisible = (if sec.isPortfolio then false else st.portfolioVisible) := by
        simp only [hsec, Option.some.injEq] at hv
        split at hv <;> rename_i hP
        · exact ⟨by rw [← hv], by rw [← hv, if_pos hP]⟩
        · exact ⟨by rw [← hv], by rw [← hv, if_neg hP]⟩
      refine ⟨?_, by simp [hsub], ?_, by simp [hsub]⟩
      · intro j hj
        rw [hvd, h₂.1, Finset.mem_erase]
        simp [hj]
      · intro _
        refine ⟨by rw [hvd, h₂.1], ?_⟩
        intro sec' hsec'
        obtain rfl : sec = sec' := Option.some.inj hsec'
        rw [hpv, h₂.2]
  · -- detail
    simp only [Option.some.injEq] at hv
    have h₂ : st₂.visibleDetails = insert step.sectionIndex st.visibleDetails ∧
        st₂.portfolioVisible = st.portfolioVisible := ⟨by rw [← hv], by rw [← hv]⟩
    refine ⟨?_, fun _ => ⟨by rw [hvd, h₂.1], by rw [hpv, h₂.2]⟩,
      by simp [hsub], by simp [hsub]⟩
    intro j hj
    rw [hvd, h₂.1, Finset.mem_insert]
    simp [hj]
  · -- portfolio
    simp only [Option.some.injEq] at hv
    have h₂ : st₂.visibleDetails = st.visibleDetails ∧ st₂.portfolioVisible = true :=
      ⟨by rw [← hv], by rw [← hv]⟩
    exact ⟨fun j _ => by rw [hvd, h₂.1], by simp [hsub], by simp [hsub],
      fun _ => ⟨by rw [hvd, h₂.1], by rw [hpv, h₂.2]⟩⟩

/-- Witness for C10: with section 1's detail expanded, navigating to step 3
(the title step of section 2) erases only section 2's entry, so section
1's entry survives. -/
theorem goToStep_visibility_frame_witness :
    ({ currentStep := 2, isAnimating := false, visibleDetails := {1},
       portfolioVisible := false, activeText := ∅ } : NavState).isAnimating = false ∧
    clampStep steps 3 ≠ ((2 : Nat) : Int) ∧
    steps.get? (clampStep steps 3).toNat = some ⟨2, SubStep.title⟩ ∧
    goToStep steps sections ⟨some []⟩
      { currentStep := 2, isAnimating := false, visibleDetails := {1},
        portfolioVisible := false, activeText := ∅ } 3 =
      some ({ currentStep := 3, isAnimating := true, visibleDetails := {1},
              portfolioVisible := false, activeText := ∅ }, []) ∧
    ((1 ∈ ({ currentStep := 3, isAnimating := true, visibleDetails := {1},
             portfolioVisible := false, activeText := ∅ } : NavState).visibleDetails) ↔
      (1 ∈ ({ currentStep := 2, isAnimating := false, visibleDetails := {1},
              portfolioVisible := false, activeText := ∅ } : NavState).visibleDetails)) ∧
    ({ currentStep := 3, isAnimating := true, visibleDetails := {1},
       portfolioVisible := false, activeText := ∅ } : NavState).visibleDetails =
      ({ currentStep := 2, isAnimating := false, visibleDetails := {1},
         portfolioVisible := false, activeText := ∅ } : NavState).visibleDetails.erase 2 :=
  ⟨rfl, by decide, by decide, by decide,
    (goToStep_visibility_frame steps sections ⟨some []⟩
      { currentStep := 2, isAnimating := false, visibleDetails := {1},
        portfolioVisible := false, activeText := ∅ } 3
      { currentStep := 3, isAnimating := true, visibleDetails := {1},
        portfolioVisible := false, activeText := ∅ } [] ⟨2, SubStep.title⟩
      rfl (by decide) (by decide) (by decide)).1 1 (by decide),
    ((goToStep_visibility_frame steps sections ⟨some []⟩
      { currentStep := 2, isAnimating := false, visibleDetails := {1},
        portfolioVisible := false, activeText := ∅ } 3
      { currentStep := 3, isAnimating := true, visibleDetails := {1},
        portfolioVisible := false, activeText := ∅ } [] ⟨2, SubStep.title⟩
      rfl (by decide) (by decide) (by decide)).2.2.1 rfl).1⟩

/-- Counterexample for C2 as stated. Concrete run on the program's own step
list: from the initial state, `goToStep(1)` with only one section element
mounted (so the arriving step's anchor, section 1, is missing) commits the
logical state (`currentStep = 1`) and fires no scroll command — but it
leaves the `isAnimating` lock set, and since no scroll tween was created
nothing will ever clear it; a subsequent `goToStep(2)` with every anchor
present is rejected unchanged instead of succeeding and scrolling. -/
theorem goToStep_missing_anchor_cex :
    goToStep steps sections ⟨some [1]⟩ initState 1 =
      some ({ currentStep := 1, isAnimating := true, visibleDetails := ∅,
              portfolioVisible := false, activeText := ∅ }, []) ∧
    goToStep steps sections ⟨some [1, 1, 1, 1, 1, 1, 1, 1, 1, 1]⟩
      { currentStep := 1, isAnimating := true, visibleDetails := ∅,
        portfolioVisible := false, activeText := ∅ } 2 =
      some ({ currentStep := 1, isAnimating := true, visibleDetails := ∅,
              portfolioVisible := false, activeText := ∅ }, []) := by
  exact ⟨by decide, by decide⟩

/-- C2 (amended) — Missing-DOM-anchor policy: when a committing `goToStep`
cannot locate the arriving step's anchor element, it still commits the
logical state (`currentStep` becomes the clamped target) and skips the
physical scroll command — but because the `isAnimating` lock was taken by
the commit and only a scroll command's completion clears it, the lock
stays held and every subsequent `goToStep` (any target, any DOM) is
rejected as a no-op: the logical/physical divergence is never reconciled
by a later `goToStep`. -/
theorem goToStep_missing_anchor_commits_and_wedges (stps : List Step)
    (secs : List SectionData) (dom : Dom) (st : NavState) (target : Int)
    (st' : NavState) (effs : List Effect) (step : Step)
    (hlock : st.isAnimating = false)
    (hne : clampStep stps target ≠ (st.currentStep : Int))
    (hstep : stps.get? (clampStep stps target).toNat = some step)
    (hmiss : ∀ l, dom.sectionEls = some l → l.length ≤ step.sectionIndex)
    (hres : goToStep stps secs dom st target = some (st', effs)) :
    st'.currentStep = (clampStep stps target).toNat ∧
    st'.isAnimating = true ∧
    (∀ i, Effect.scrollTo i ∉ effs) ∧
    ∀ (dom₂ : Dom) (target₂ : Int),
      goToStep stps secs dom₂ st' target₂ = some (st', []) := by
  obtain ⟨hc, ha⟩ := goToStep_commit_fields hlock hne hstep hres
  obtain ⟨st₂, -, -, heff⟩ := goToStep_commit_shape hlock hne hstep hres
  refine ⟨hc, ha, ?_, fun dom₂ t₂ => goToStep_noop_of_locked _ _ _ _ _ ha⟩
  intro i hi
  rw [heff, List.mem_append] at hi
  rcases hi with hi | hi
  · exact animateSectionChange_no_scroll _ _ _ _ _ _ hi
  · unfold scrollEffects at hi
    rcases hd : dom.sectionEls with _ | l
    · rw [hd] at hi
      simp at hi
    · rw [hd] at hi
      have hnl : ¬ step.sectionIndex < l.length := Nat.not_lt.mpr (hmiss l hd)
      simp [hnl] at hi

/-- Witness for the amended C2: the concrete missing-anchor run of the
counterexample, checked against the general theorem. -/
theorem goToStep_missing_anchor_commits_and_wedges_witness :
    initState.isAnimating = false ∧
    clampStep steps 1 ≠ (initState.currentStep : Int) ∧
    steps.get? (clampStep steps 1).toNat = some ⟨1, SubStep.title⟩ ∧
    (∀ l, (⟨some [1]⟩ : Dom).sectionEls = some l →
      l.length ≤ (Step.mk 1 SubStep.title).sectionIndex) ∧
    ({ currentStep := 1, isAnimating := true, visibleDetails := ∅,
       portfolioVisible := false, activeText := ∅ } : NavState).currentStep =
        (clampStep steps 1).toNat ∧
    ({ currentStep := 1, isAnimating := true, visibleDetails := ∅,
       portfolioVisible := false, activeText := ∅ } : NavState).isAnimating = true ∧
    goToStep steps sections ⟨some [3, 3, 3, 3, 3, 3, 3, 3, 3, 3]⟩
      { currentStep := 1, isAnimating := true, visibleDetails := ∅,
        portfolioVisible := false, activeText := ∅ } 0 =
      some ({ currentStep := 1, isAnimating := true, visibleDetails := ∅,
              portfolioVisible := false, activeText := ∅ }, []) :=
  ⟨rfl, by decide, by decide,
    fun l hl => by
      obtain rfl : [1] = l := Option.some.inj hl
      decide,
    (goToStep_missing_anchor_commits_and_wedges steps sections ⟨some [1]⟩
        initState 1
        { currentStep := 1, isAnimating := true, visibleDetails := ∅,
          portfolioVisible := false, activeText := ∅ } [] ⟨1, SubStep.title⟩
        rfl (by decide) (by decide)
        (fun l hl => by
          obtain rfl : [1] = l := Option.some.inj hl
          decide)
        (by decide)).1,
    (goToStep_missing_anchor_commits_and_wedges steps sections ⟨some [1]⟩
        initState 1
        { currentStep := 1, isAnimating := true, visibleDetails := ∅,
          portfolioVisible := false, activeText := ∅ } [] ⟨1, SubStep.title⟩
        rfl (by decide) (by decide)
        (fun l hl => by
          obtain rfl : [1] = l := Option.some.inj hl
          decide)
        (by decide)).2.1,
    (goToStep_missing_anchor_commits_and_wedges steps sections ⟨some [1]⟩
        initState 1
        { currentStep := 1, isAnimating := true, visibleDetails := ∅,
          portfolioVisible := false, activeText := ∅ } [] ⟨1, SubStep.title⟩
        rfl (by decide) (by decide)
        (fun l hl => by
          obtain rfl : [1] = l := Option.some.inj hl
          decide)
        (by decide)).2.2.2 ⟨some [3, 3, 3, 3, 3, 3, 3, 3, 3, 3]⟩ 0⟩

-- ── Horizontal gallery (PortfolioHorizontal) ────────────────

/-- One entry of the gallery's `projects` array. -/
structure Project where
  title : String
  subtitle : String
  description : String
  color : String
  image : String
  tags : List String
deriving DecidableEq, Repr

/-- The module-level `projects` constant (long description strings are
abbreviated; only the list's length is ever consulted by the navigation
logic). -/
def projects : List Project := [
  { title := "CiperLux", subtitle := "Fintech Platform",
    description := "AI-powered stock trading platform", color := "#4f7cff",
    image := "photo-1611974789855", tags := ["Next.js", "Python", "AI/ML"] },
  { title := "NexusAI", subtitle := "AI Chat Platform",
    description := "Multi-model AI chatbot platform", color := "#34d399",
    image := "photo-1677442135136", tags := ["Next.js", "LangChain", "OpenAI"] },
  { title := "CloudVault", subtitle := "Infrastructure Monitor",
    description := "Cloud infrastructure monitoring dashboard", color := "#f59e0b",
    image := "photo-1558494949", tags := ["React", "Go", "Kubernetes"] },
  { title := "Strategy Hub", subtitle := "Enterprise Suite",
    description := "Enterprise project management suite", color := "#a78bfa",
    image := "photo-1460925895917", tags := ["Vue.js", "Node.js", "MongoDB"] }
]

/-- State of the horizontal gallery: the `currentCard` ref, the `isMoving`
lock, and whether the track element (`trackRef.current`) is mounted. In
every reachable configuration in which the parent can call `next`/`prev`
the track is mounted, because the `navRef` effect that exposes those
functions runs only after the component has rendered the track. -/
structure GalleryState where
  currentCard : Nat
  isMoving : Bool
  trackPresent : Bool
deriving DecidableEq

/-- `slideTo(index)`: report `true` while a slide is in flight; report
`false` for an out-of-range index (bubbling the intent to the parent);
otherwise take the `isMoving` lock, record the card, and start the slide
tween (whose `onComplete` — `gallerySlideComplete` — clears the lock),
reporting `true`; if the track ref is null, report `false` with the lock
left set (the early `return false` after taking the lock). -/
def slideTo (g : GalleryState) (index : Int) : GalleryState × Bool :=
  if g.isMoving then (g, true)
  else if index < 0 ∨ (projects.length : Int) ≤ index then (g, false)
  else
    let g' := { g with isMoving := true, currentCard := index.toNat }
    if g'.trackPresent then (g', true) else (g', false)

/-- The slide tween's `onComplete`: clears the gallery's `isMoving` lock. -/
def gallerySlideComplete (g : GalleryState) : GalleryState :=
  { g with isMoving := false }

/-- `next()` as exposed through `navRef`. -/
def navNext (g : GalleryState) : GalleryState × Bool :=
  slideTo g ((g.currentCard : Int) + 1)

/-- `prev()` as exposed through `navRef`. -/
def navPrev (g : GalleryState) : GalleryState × Bool :=
  slideTo g ((g.currentCard : Int) - 1)

/-- C7 — Sub-navigator lock-release ordering: in every reachable gallery
state (the track is mounted whenever `next`/`prev` are callable, since the
`navRef` effect runs only after the track renders), a call of `slideTo` —
in particular `next()` or `prev()` — that reports `false` leaves the state
untouched and holds no lock: `false` is only ever reported from the
out-of-range branch, which is reached only when `isMoving` was already
clear, so the gallery never reports `false` while its lock is set. -/
theorem slideTo_false_lock_free (g : GalleryState) (index : Int)
    (htrack : g.trackPresent = true)
    (hfalse : (slideTo g index).2 = false) :
    (slideTo g index).1 = g ∧ (slideTo g index).1.isMoving = false := by
  unfold slideTo at hfalse ⊢
  by_cases hm : g.isMoving
  · rw [if_pos hm] at hfalse
    exact absurd hfalse (by simp)
  · rw [if_neg hm] at hfalse ⊢
    by_cases hr : index < 0 ∨ (projects.length : Int) ≤ index
    · rw [if_pos hr] at hfalse ⊢
      exact ⟨rfl, by simpa using hm⟩
    · rw [if_neg hr] at hfalse
      rw [if_pos (by simpa using htrack)] at hfalse
      exact absurd hfalse (by simp)

/-- Witness for C7: at the last card with the track mounted, `next()`
reports `false` with the state unchanged and the lock clear. -/
theorem slideTo_false_lock_free_witness :
    ({ currentCard := 3, isMoving := false, trackPresent := true } :
        GalleryState).trackPresent = true ∧
    (slideTo { currentCard := 3, isMoving := false, trackPresent := true } 4).2 = false ∧
    (slideTo { currentCard := 3, isMoving := false, trackPresent := true } 4).1 =
      { currentCard := 3, isMoving := false, trackPresent := true } ∧
    (slideTo { currentCard := 3, isMoving := false, trackPresent := true } 4).1.isMoving
      = false :=
  ⟨rfl, by decide,
    (slideTo_false_lock_free
      { currentCard := 3, isMoving := false, trackPresent := true } 4 rfl (by decide)).1,
    (slideTo_false_lock_free
      { currentCard := 3, isMoving := false, trackPresent := true } 4 rfl (by decide)).2⟩

-- ── Wheel input aggregator ──────────────────────────────────

/-- The wheel threshold constant (`const THRESHOLD = 50`). -/
def THRESHOLD : ℤ := 50

/-- Combined mutable state read by the wheel handler: the orchestrator's
navigation state, the `wheelAccum` ref, and `portfolioNavRef.current`
(`none` when the gallery is not mounted, otherwise the gallery state its
`next`/`prev` closures act on). -/
structure SysState where
  nav : NavState
  wheelAccum : ℤ
  galleryRef : Option GalleryState
deriving DecidableEq

/-- One wheel event's accumulator update, shared verbatim by both branches
of `onWheel`: add `e.deltaY` to the running accumulator; once
`|accumulator| ≥ THRESHOLD`, compute the direction (`1` if the accumulator
is positive, else `-1`) and zero the accumulator immediately. Returns the
new accumulator and the emitted direction, if any. -/
def wheelAccumStep (acc deltaY : ℤ) : ℤ × Option Int :=
  let acc' := acc + deltaY
  if THRESHOLD ≤ |acc'| then (0, some (if 0 < acc' then 1 else -1))
  else (acc', none)

/-- The 200 ms debounce timer's callback (`wheelAccum.current = 0`); it is
re-armed on every wheel event and modelled as an explicit transition. -/
def wheelTimerFire (st : SysState) : SysState :=
  { st with wheelAccum := 0 }

/-- Dispatch of an emitted wheel direction while on the portfolio step:
offer the intent to the gallery (`nav.next()` / `nav.prev()`, which read
`currentCard` at call time); when the gallery reports it unhandled, bubble
to `goToStep(currentStep ± 1)`; with no gallery mounted, go directly to
`goToStep(currentStep + direction)`. -/
def portfolioDispatch (stps : List Step) (secs : List SectionData) (dom : Dom)
    (st : SysState) (direction : Int) : Option (SysState × List Effect) :=
  match st.galleryRef with
  | some g =>
    if 0 < direction then
      match slideTo g ((g.currentCard : Int) + 1) with
      | (g', true) => some ({ st with wheelAccum := 0, galleryRef := some g' }, [])
      | (g', false) =>
        (goToStep stps secs dom st.nav ((st.nav.currentStep : Int) + 1)).map
          fun q => ({ st with wheelAccum := 0, galleryRef := some g', nav := q.1 }, q.2)
    else
      match slideTo g ((g.currentCard : Int) - 1) with
      | (g', true) => some ({ st with wheelAccum := 0, galleryRef := some g' }, [])
      | (g', false) =>
        (goToStep stps secs dom st.nav ((st.nav.currentStep : Int) - 1)).map
          fun q => ({ st with wheelAccum := 0, galleryRef := some g', nav := q.1 }, q.2)
  | none =>
    (goToStep stps secs dom st.nav ((st.nav.currentStep : Int) + direction)).map
      fun q => ({ st with wheelAccum := 0, nav := q.1 }, q.2)

/-- Dispatch of an emitted wheel direction on an ordinary step:
`goToStep(currentStep + direction)`. -/
def plainDispatch (stps : List Step) (secs : List SectionData) (dom : Dom)
    (st : SysState) (direction : Int) : Option (SysState × List Effect) :=
  (goToStep stps secs dom st.nav ((st.nav.currentStep : Int) + direction)).map
    fun q => ({ st with wheelAccum := 0, nav := q.1 }, q.2)

/-- `onWheel(e)`: read the current step; on the portfolio step (lock
permitting) accumulate and offer an emitted intent to the gallery first,
otherwise (lock permitting) accumulate and dispatch to the orchestrator.
`none` models the JS exception when `steps[currentStepRef.current]` is
undefined (unreachable: the current step index is always in range). The
`e.preventDefault()` call and the debounce-timer re-arm have no effect on
this state and are omitted. -/
def onWheel (stps : List Step) (secs : List SectionData) (dom : Dom)
    (st : SysState) (deltaY : ℤ) : Option (SysState × List Effect) :=
  match stps.get? st.nav.currentStep with
  | none => none
  | some step =>
    if step.subStep = SubStep.portfolio then
      if st.nav.isAnimating then some (st, [])
      else
        match wheelAccumStep st.wheelAccum deltaY with
        | (acc', none) => some ({ st with wheelAccum := acc' }, [])
        | (_, some direction) => portfolioDispatch stps secs dom st direction
    else
      if st.nav.isAnimating then some (st, [])
      else
        match wheelAccumStep st.wheelAccum deltaY with
        | (acc', none) => some ({ st with wheelAccum := acc' }, [])
        | (_, some direction) => plainDispatch stps secs dom st direction

/-- Run a burst of wheel deltas through the accumulator, collecting every
emitted direction (the debounce timer does not fire inside a burst). -/
def wheelRun (acc : ℤ) : List ℤ → ℤ × List Int
  | [] => (acc, [])
  | d :: rest =>
    let p := wheelAccumStep acc d
    let q := wheelRun p.1 rest
    (q.1, p.2.toList ++ q.2)

/-- Decidable statement that every running accumulator value of a burst
stays strictly below the threshold. -/
def belowThresholdRun (acc : ℤ) : List ℤ → Bool
  | [] => true
  | d :: rest => decide (|acc + d| < THRESHOLD) && belowThresholdRun (acc + d) rest

-- ── Wheel lemmas ────────────────────────────────────────────

/-- While every running accumulator value stays below the threshold, a
burst emits nothing and the accumulator is exactly the running sum. -/
lemma wheelRun_below (ds : List ℤ) : ∀ acc : ℤ,
    belowThresholdRun acc ds = true → wheelRun acc ds = (acc + ds.sum, []) := by
  induction ds with
  | nil => intro acc _; simp [wheelRun]
  | cons d rest ih =>
    intro acc h
    simp only [belowThresholdRun, Bool.and_eq_true, decide_eq_true_eq] at h
    obtain ⟨h1, h2⟩ := h
    have hstep : wheelAccumStep acc d = (acc + d, none) := by
      unfold wheelAccumStep
      rw [if_neg (not_le.mpr h1)]
    simp [wheelRun, hstep, ih (acc + d) h2, add_assoc]

/-- Splitting a burst splits the accumulator run. -/
lemma wheelRun_append (l m : List ℤ) : ∀ acc : ℤ,
    wheelRun acc (l ++ m) =
      ((wheelRun (wheelRun acc l).1 m).1,
        (wheelRun acc l).2 ++ (wheelRun (wheelRun acc l).1 m).2) := by
  induction l with
  | nil => intro acc; simp [wheelRun]
  | cons d rest ih =>
    intro acc
    simp only [List.cons_append, wheelRun, List.append_eq]
    rw [ih]
    simp [List.append_assoc]

/-- C5 — Wheel threshold behavior: with the lock free and the current step
not the gallery step, every wheel event adds its delta to the running
accumulator; a burst all of whose running accumulator values stay below
the threshold (50) emits zero intents and leaves the accumulator at the
running sum; the first event that pushes `|accumulator|` to the threshold
emits exactly one intent — towards `currentStep + 1` if the accumulator is
positive, else `currentStep - 1` — and zeroes the accumulator immediately.
`onWheel` realizes each accumulator step: below the threshold it only
updates the accumulator (no state change, no commands); at the threshold
it dispatches exactly one `goToStep(currentStep ± 1)` with the accumulator
reset to zero. -/
theorem wheel_threshold_behavior (stps : List Step) (secs : List SectionData)
    (dom : Dom) (ds : List ℤ) (d : ℤ) (st : SysState) (step : Step)
    (hbelow : belowThresholdRun 0 ds = true)
    (hstep : stps.get? st.nav.currentStep = some step)
    (hnp : step.subStep ≠ SubStep.portfolio)
    (hlock : st.nav.isAnimating = false) :
    wheelRun 0 ds = (ds.sum, []) ∧
    (THRESHOLD ≤ |ds.sum + d| →
      wheelRun 0 (ds ++ [d]) = (0, [if 0 < ds.sum + d then 1 else -1])) ∧
    (|st.wheelAccum + d| < THRESHOLD →
      onWheel stps secs dom st d =
        some ({ st with wheelAccum := st.wheelAccum + d }, [])) ∧
    (THRESHOLD ≤ |st.wheelAccum + d| →
      onWheel stps secs dom st d =
        plainDispatch stps secs dom st (if 0 < st.wheelAccum + d then 1 else -1)) ∧
    (THRESHOLD ≤ |st.wheelAccum + d| →
      ∀ st' effs, onWheel stps secs dom st d = some (st', effs) →
        st'.wheelAccum = 0) := by
  have hrun : wheelRun 0 ds = (ds.sum, []) := by
    have := wheelRun_below ds 0 hbelow
    rwa [zero_add] at this
  have h4 : THRESHOLD ≤ |st.wheelAccum + d| →
      onWheel stps secs dom st d =
        plainDispatch stps secs dom st (if 0 < st.wheelAccum + d then 1 else -1) := by
    intro hth
    have h1 : wheelAccumStep st.wheelAccum d =
        (0, some (if 0 < st.wheelAccum + d then 1 else -1)) := by
      unfold wheelAccumStep
      rw [if_pos hth]
    unfold onWheel
    simp only [hstep]
    rw [if_neg hnp, hlock, if_neg Bool.false_ne_true, h1]
  refine ⟨hrun, ?_, ?_, h4, ?_⟩
  · intro hth
    rw [wheelRun_append, hrun]
    have hstep1 : wheelAccumStep ds.sum d = (0, some (if 0 < ds.sum + d then 1 else -1)) := by
      unfold wheelAccumStep
      rw [if_pos hth]
    simp [wheelRun, hstep1]
  · intro hlt
    have h1 : wheelAccumStep st.wheelAccum d = (st.wheelAccum + d, none) := by
      unfold wheelAccumStep
      rw [if_neg (not_le.mpr hlt)]
    unfold onWheel
    simp only [hstep]
    rw [if_neg hnp, hlock, if_neg Bool.false_ne_true, h1]
  · intro hth st' effs hcall
    rw [h4 hth] at hcall
    unfold plainDispatch at hcall
    rcases hgo : goToStep stps secs dom st.nav
        ((st.nav.currentStep : Int) + (if 0 < st.wheelAccum + d then 1 else -1))
      with _ | q
    · rw [hgo] at hcall
      exact absurd hcall (by simp)
    · rw [hgo] at hcall
      simp only [Option.map_some', Option.some.injEq, Prod.mk.injEq] at hcall
      rw [← hcall.1]

/-- Witness for C5: on the title step with the lock free, the burst
`[20, 20]` stays below the threshold and emits nothing (accumulator 40);
appending `60` crosses the threshold and emits exactly one advance;
`onWheel` with delta 30 only accumulates, and with delta 60 dispatches one
`goToStep(1)` with the accumulator reset to zero. -/
theorem wheel_threshold_behavior_witness :
    belowThresholdRun 0 [20, 20] = true ∧
    steps.get? 0 = some ⟨0, SubStep.title⟩ ∧
    (Step.mk 0 SubStep.title).subStep ≠ SubStep.portfolio ∧
    initState.isAnimating = false ∧
    wheelRun 0 [20, 20] = ((40 : ℤ), []) ∧
    wheelRun 0 ([20, 20] ++ [60]) = (0, [(1 : Int)]) ∧
    onWheel steps sections ⟨some []⟩
      { nav := initState, wheelAccum := 0, galleryRef := none } 30 =
      some ({ nav := initState, wheelAccum := 30, galleryRef := none }, []) ∧
    onWheel steps sections ⟨some []⟩
      { nav := initState, wheelAccum := 0, galleryRef := none } 60 =
      some ({ nav := { currentStep := 1, isAnimating := true, visibleDetails := ∅,
                       portfolioVisible := false, activeText := ∅ },
              wheelAccum := 0, galleryRef := none }, []) :=
  ⟨by decide, by decide, by decide, rfl,
    ((wheel_threshold_behavior steps sections ⟨some []⟩ [20, 20] 30
        { nav := initState, wheelAccum := 0, galleryRef := none } ⟨0, SubStep.title⟩
        (by decide) (by decide) (by decide) rfl).1).trans (by decide),
    ((wheel_threshold_behavior steps sections ⟨some []⟩ [20, 20] 60
        { nav := initState, wheelAccum := 0, galleryRef := none } ⟨0, SubStep.title⟩
        (by decide) (by decide) (by decide) rfl).2.1 (by decide)).trans (by decide),
    ((wheel_threshold_behavior steps sections ⟨some []⟩ [20, 20] 30
        { nav := initState, wheelAccum := 0, galleryRef := none } ⟨0, SubStep.title⟩
        (by decide) (by decide) (by decide) rfl).2.2.1 (by decide)).trans (by decide),
    ((wheel_threshold_behavior steps sections ⟨some []⟩ [20, 20] 60
        { nav := initState, wheelAccum := 0, galleryRef := none } ⟨0, SubStep.title⟩
        (by decide) (by decide) (by decide) rfl).2.2.2.1 (by decide)).trans (by decide)⟩

/-- C6 — Gallery bubbling: on the portfolio step with the orchestrator lock
free and the gallery mounted and not mid-slide, an emitted advance intent
whose `next()` finds no further card (the gallery is at its last item, so
`slideTo` is out of range and reports `false`) results in a top-level
`goToStep(currentStep + 1)` — not a no-op — with the gallery state
untouched and the accumulator reset; symmetrically, a retreat intent at
the first item results in `goToStep(currentStep - 1)`. -/
theorem gallery_bubbling (stps : List Step) (secs : List SectionData)
    (dom : Dom) (st : SysState) (d : ℤ) (step : Step) (g : GalleryState)
    (hstep : stps.get? st.nav.currentStep = some step)
    (hp : step.subStep = SubStep.portfolio)
    (hlock : st.nav.isAnimating = false)
    (hg : st.galleryRef = some g)
    (hmov : g.isMoving = false)
    (hth : THRESHOLD ≤ |st.wheelAccum + d|) :
    (0 < st.wheelAccum + d →
      (projects.length : Int) ≤ (g.currentCard : Int) + 1 →
      onWheel stps secs dom st d =
        (goToStep stps secs dom st.nav ((st.nav.currentStep : Int) + 1)).map
          fun q => ({ st with wheelAccum := 0, galleryRef := some g, nav := q.1 }, q.2)) ∧
    (¬ 0 < st.wheelAccum + d →
      (g.currentCard : Int) - 1 < 0 →
      onWheel stps secs dom st d =
        (goToStep stps secs dom st.nav ((st.nav.currentStep : Int) - 1)).map
          fun q => ({ st with wheelAccum := 0, galleryRef := some g, nav := q.1 }, q.2)) := by
  have hconn : onWheel stps secs dom st d =
      portfolioDispatch stps secs dom st (if 0 < st.wheelAccum + d then 1 else -1) := by
    have h1 : wheelAccumStep st.wheelAccum d =
        (0, some (if 0 < st.wheelAccum + d then 1 else -1)) := by
      unfold wheelAccumStep
      rw [if_pos hth]
    unfold onWheel
    simp only [hstep]
    rw [if_pos hp, hlock, if_neg Bool.false_ne_true, h1]
  constructor
  · intro hpos hlast
    have hdir : (if 0 < st.wheelAccum + d then (1 : Int) else -1) = 1 := if_pos hpos
    have hslide : slideTo g ((g.currentCard : Int) + 1) = (g, false) := by
      unfold slideTo
      rw [hmov]
      rw [if_neg Bool.false_ne_true]
      rw [if_pos (Or.inr hlast)]
    rw [hconn, hdir]
    unfold portfolioDispatch
    simp only [hg]
    rw [if_pos (by decide : (0 : Int) < 1), hslide]
  · intro hneg hfirst
    have hdir : (if 0 < st.wheelAccum + d then (1 : Int) else -1) = -1 := if_neg hneg
    have hslide : slideTo g ((g.currentCard : Int) - 1) = (g, false) := by
      unfold slideTo
      rw [hmov]
      rw [if_neg Bool.false_ne_true]
      rw [if_pos (Or.inl hfirst)]
    rw [hconn, hdir]
    unfold portfolioDispatch
    simp only [hg]
    rw [if_neg (by decide : ¬ (0 : Int) < -1), hslide]

/-- Witness for C6: on the portfolio step (step index 12) at the last
gallery card with both locks free, a wheel delta of 50 bubbles past the
gallery into `goToStep(13)`, committing section 7's title step. -/
theorem gallery_bubbling_witness :
    steps.get? 12 = some ⟨6, SubStep.portfolio⟩ ∧
    (Step.mk 6 SubStep.portfolio).subStep = SubStep.portfolio ∧
    ({ currentStep := 12, isAnimating := false, visibleDetails := ∅,
       portfolioVisible := true, activeText := ∅ } : NavState).isAnimating = false ∧
    ({ currentCard := 3, isMoving := false, trackPresent := true } :
      GalleryState).isMoving = false ∧
    THRESHOLD ≤ |(0 : ℤ) + 50| ∧
    onWheel steps sections ⟨some []⟩
      { nav := { currentStep := 12, isAnimating := false, visibleDetails := ∅,
                 portfolioVisible := true, activeText := ∅ },
        wheelAccum := 0,
        galleryRef := some { currentCard := 3, isMoving := false, trackPresent := true } }
      50 =
      some ({ nav := { currentStep := 13, isAnimating := true, visibleDetails := ∅,
                       portfolioVisible := true, activeText := ∅ },
              wheelAccum := 0,
              galleryRef :=
                some { currentCard := 3, isMoving := false, trackPresent := true } },
            []) :=
  ⟨by decide, rfl, rfl, rfl, by decide,
    ((gallery_bubbling steps sections ⟨some []⟩
        { nav := { currentStep := 12, isAnimating := false, visibleDetails := ∅,
                   portfolioVisible := true, activeText := ∅ },
          wheelAccum := 0,
          galleryRef := some { currentCard := 3, isMoving := false, trackPresent := true } }
        50 ⟨6, SubStep.portfolio⟩
        { currentCard := 3, isMoving := false, trackPresent := true }
        (by decide) rfl rfl rfl rfl (by decide)).1 (by decide) (by decide)).trans
      (by decide)⟩

-- ── Progress reporter ───────────────────────────────────────

/-- `syncProgress`: read `window.scrollY`, compute
`docHeight = document.documentElement.scrollHeight - window.innerHeight`,
and publish `scrollTop / docHeight` when the denominator is positive,
`0` otherwise (`onScrollProgress(progress)`). The page geometry is
modelled over the rationals. Note that the quotient is published as-is —
the handler contains no clamp. -/
def syncProgress (scrollTop scrollHeight innerHeight : ℚ) : ℚ :=
  let docHeight := scrollHeight - innerHeight
  if docHeight > 0 then scrollTop / docHeight else 0

/-- Follows the spec's words, for comparison with `syncProgress`:
`progress = clamp(scrollTop / (documentHeight - viewportHeight), 0, 1)`
with `progress = 0` whenever the denominator is ≤ 0. -/
def specProgress (scrollTop scrollHeight innerHeight : ℚ) : ℚ :=
  if scrollHeight - innerHeight ≤ 0 then 0
  else max 0 (min (scrollTop / (scrollHeight - innerHeight)) 1)

/-- Counterexample for C3 as stated: with `documentHeight = 3000`,
`viewportHeight = 1000` and an overscrolled `scrollTop = 4000` (as
rubber-band overscroll produces), the published progress is `2` — outside
`[0, 1]` and different from the spec formula's clamped value `1`: the code
clamps nothing. -/
theorem syncProgress_unclamped_cex :
    syncProgress 4000 3000 1000 = 2 ∧
    specProgress 4000 3000 1000 = 1 ∧
    ¬ syncProgress 4000 3000 1000 ≤ 1 := by
  refine ⟨?_, ?_, ?_⟩ <;> norm_num [syncProgress, specProgress]

/-- C3 (amended) — Progress Reporter formula: on every native scroll sample
and once at mount the published progress is
`scrollTop / (documentHeight - viewportHeight)` with no clamping (and `0`
whenever the denominator is ≤ 0); the reference example
`documentHeight = 3000`, `viewportHeight = 1000`, `scrollTop = 1000`
yields `1/2`; and whenever `0 ≤ scrollTop ≤ documentHeight -
viewportHeight` — every physical, non-overscrolled scroll position — the
published value agrees with the spec's clamped formula and lies in
`[0, 1]`. -/
theorem syncProgress_formula (scrollTop scrollHeight innerHeight : ℚ)
    (h0 : 0 ≤ scrollTop) (h1 : scrollTop ≤ scrollHeight - innerHeight) :
    syncProgress 1000 3000 1000 = 1/2 ∧
    0 ≤ syncProgress scrollTop scrollHeight innerHeight ∧
    syncProgress scrollTop scrollHeight innerHeight ≤ 1 ∧
    syncProgress scrollTop scrollHeight innerHeight =
      specProgress scrollTop scrollHeight innerHeight := by
  have hex : syncProgress 1000 3000 1000 = 1/2 := by norm_num [syncProgress]
  by_cases hd : scrollHeight - innerHeight > 0
  · have hle : scrollTop / (scrollHeight - innerHeight) ≤ 1 :=
      (div_le_one hd).mpr h1
    have hge : 0 ≤ scrollTop / (scrollHeight - innerHeight) :=
      div_nonneg h0 (le_of_lt hd)
    refine ⟨hex, ?_, ?_, ?_⟩
    · simp only [syncProgress]
      rw [if_pos hd]
      exact hge
    · simp only [syncProgress]
      rw [if_pos hd]
      exact hle
    · simp only [syncProgress, specProgress]
      rw [if_pos hd, if_neg (not_le.mpr hd)]
      rw [min_eq_left hle, max_eq_right hge]
  · refine ⟨hex, ?_, ?_, ?_⟩ <;> simp only [syncProgress, specProgress]
    · rw [if_neg hd]
    · rw [if_neg hd]
      norm_num
    · rw [if_neg hd, if_pos (not_lt.mp hd)]

/-- Witness for the amended C3: the spec's reference example,
`scrollTop = 1000`, `documentHeight = 3000`, `viewportHeight = 1000`. -/
theorem syncProgress_formula_witness :
    (0 : ℚ) ≤ 1000 ∧ (1000 : ℚ) ≤ 3000 - 1000 ∧
    syncProgress 1000 3000 1000 = 1/2 ∧
    0 ≤ syncProgress 1000 3000 1000 ∧
    syncProgress 1000 3000 1000 ≤ 1 ∧
    syncProgress 1000 3000 1000 = specProgress 1000 3000 1000 :=
  ⟨by norm_num, by norm_num,
    (syncProgress_formula 1000 3000 1000 (by norm_num) (by norm_num)).1,
    (syncProgress_formula 1000 3000 1000 (by norm_num) (by norm_num)).2.1,
    (syncProgress_formula 1000 3000 1000 (by norm_num) (by norm_num)).2.2.1,
    (syncProgress_formula 1000 3000 1000 (by norm_num) (by norm_num)).2.2.2⟩
